import Mathlib

/-!
Shallow embedding of the color-conversion core of the
`negarity-color-visualizer` repository (src/src/utils/colorConversion.ts,
src/src/renderers/Renderer2D.ts, src/src/components/CIEBackground.ts,
src/src/color-channel-visualizer/createSlider.ts and the channel/hex helper
modules), together with theorems checking the specification's claims.

JavaScript numbers are modelled as exact rationals (ℚ).  The only
transcendental primitive the embedded code uses, `Math.pow` with a
non-integer exponent, is abstracted as an explicit function parameter
`pw : ℚ → ℚ → ℚ`; every theorem below holds for an arbitrary such
parameter, so no claim depends on the numeric value of a power.
-/

namespace Negarity

/-- JavaScript `Math.round`: round half toward positive infinity. -/
def jsRound (q : ℚ) : ℤ := ⌊q + 1/2⌋

/-! ## src/src/utils/colorConversion.ts -/

/-- Per-channel helper `linearize` inside `rgbToLinear` (colorConversion.ts
lines 9–14): normalize by 255, then the sRGB decode curve, power branch for
`normalized > 0.04045`. -/
def linearize (pw : ℚ → ℚ → ℚ) (val : ℚ) : ℚ :=
  let normalized := val / 255
  if normalized > 0.04045 then pw ((normalized + 0.055) / 1.055) 2.4
  else normalized / 12.92

/-- `rgbToLinear` (colorConversion.ts lines 8–17). -/
def rgbToLinear (pw : ℚ → ℚ → ℚ) (r g b : ℚ) : ℚ × ℚ × ℚ :=
  (linearize pw r, linearize pw g, linearize pw b)

/-- The sRGB forward transfer function as the spec words it (§4.1: "linear
segment below a normalized threshold of 0.04045 (divide by 12.92), power-law
segment above it").  Spec-side definition, to be compared with `linearize`. -/
def srgbDecodeSpec (pw : ℚ → ℚ → ℚ) (v : ℚ) : ℚ :=
  let normalized := v / 255
  if normalized ≤ 0.04045 then normalized / 12.92
  else pw ((normalized + 0.055) / 1.055) 2.4

/-- `linearRgbToXyz` (colorConversion.ts lines 23–41): fixed sRGB→XYZ D65
matrix, result scaled by 100. -/
def linearRgbToXyz (r g b : ℚ) : ℚ × ℚ × ℚ :=
  let x := r * 0.4124564 + g * 0.3575761 + b * 0.1804375
  let y := r * 0.2126729 + g * 0.7151522 + b * 0.0721750
  let z := r * 0.0193339 + g * 0.1191920 + b * 0.9503041
  (x * 100, y * 100, z * 100)

/-- The spec's formula for linear RGB → XYZ (§4.1: "fixed 3×3 matrix
multiply"), before the ×100 scaling.  Spec-side definition. -/
def xyzRawSpec (r g b : ℚ) : ℚ × ℚ × ℚ :=
  (r * 0.4124564 + g * 0.3575761 + b * 0.1804375,
   r * 0.2126729 + g * 0.7151522 + b * 0.0721750,
   r * 0.0193339 + g * 0.1191920 + b * 0.9503041)

/-- `xyzToXy` (colorConversion.ts lines 55–61). -/
def xyzToXy (x y z : ℚ) : ℚ × ℚ :=
  let sum := x + y + z
  if sum = 0 then (0, 0)
  else (x / sum, y / sum)

/-- `getRgbGamutVertices` (colorConversion.ts lines 75–83). -/
def getRgbGamutVertices : List (ℚ × ℚ) :=
  [(0.64, 0.33), (0.30, 0.60), (0.15, 0.06)]

/-- `getSpectralLocus` (colorConversion.ts lines 96–166): the 65 sample
points of the CIE 1931 spectral locus. -/
def getSpectralLocus : List (ℚ × ℚ) :=
  [(0.1741, 0.0050), (0.1738, 0.0049), (0.1736, 0.0048), (0.1733, 0.0048),
   (0.1730, 0.0048), (0.1726, 0.0048), (0.1721, 0.0049), (0.1714, 0.0051),
   (0.1703, 0.0057), (0.1689, 0.0069), (0.1669, 0.0086), (0.1644, 0.0109),
   (0.1611, 0.0138), (0.1566, 0.0177), (0.1510, 0.0227), (0.1440, 0.0297),
   (0.1355, 0.0399), (0.1241, 0.0578), (0.1096, 0.0868), (0.0913, 0.1327),
   (0.0687, 0.2007), (0.0454, 0.2950), (0.0235, 0.4127), (0.0082, 0.5384),
   (0.0039, 0.6548), (0.0139, 0.7502), (0.0389, 0.8120), (0.0743, 0.8338),
   (0.1142, 0.8262), (0.1547, 0.8059), (0.1929, 0.7816), (0.2296, 0.7543),
   (0.2658, 0.7243), (0.3016, 0.6923), (0.3373, 0.6589), (0.3731, 0.6245),
   (0.4087, 0.5896), (0.4441, 0.5547), (0.4788, 0.5202), (0.5125, 0.4866),
   (0.5448, 0.4544), (0.5752, 0.4242), (0.6029, 0.3965), (0.6270, 0.3725),
   (0.6482, 0.3514), (0.6658, 0.3340), (0.6801, 0.3197), (0.6915, 0.3083),
   (0.7006, 0.2993), (0.7079, 0.2920), (0.7140, 0.2859), (0.7190, 0.2809),
   (0.7230, 0.2770), (0.7260, 0.2740), (0.7283, 0.2717), (0.7300, 0.2700),
   (0.7311, 0.2689), (0.7320, 0.2680), (0.7327, 0.2673), (0.7334, 0.2666),
   (0.7340, 0.2660), (0.7344, 0.2656), (0.7346, 0.2654), (0.7347, 0.2653),
   (0.7347, 0.2653)]

/-- The three linear RGB channels `xyToRgb` computes from (x, y, Y) through
the inverse sRGB matrix, before any gamut handling (colorConversion.ts
lines 179–191). -/
def xyToLinearPre (x y Y : ℚ) : ℚ × ℚ × ℚ :=
  let X := (x / y) * Y
  let Z := ((1 - x - y) / y) * Y
  (X * 3.2404542 + Y * (-1.5371385) + Z * (-0.4985314),
   X * (-0.9692660) + Y * 1.8760108 + Z * 0.0415560,
   X * 0.0556434 + Y * (-0.2040259) + Z * 1.0572252)

/-- The out-of-gamut handling of `xyToRgb` (colorConversion.ts lines
195–201): if the maximum channel exceeds 1, divide all three channels by
that maximum, otherwise leave them unchanged. -/
def gamutScale (r g b : ℚ) : ℚ × ℚ × ℚ :=
  let m := max r (max g b)
  if m > 1 then (r / m, g / m, b / m) else (r, g, b)

/-- `gammaCorrect` inside `xyToRgb` (colorConversion.ts lines 204–210). -/
def gammaCorrect (pw : ℚ → ℚ → ℚ) (val : ℚ) : ℚ :=
  if val ≤ 0.0031308 then 12.92 * val
  else 1.055 * pw val (1 / 2.4) - 0.055

/-- `normalize` inside `xyToRgb` (colorConversion.ts lines 218–222):
hard-clamp the gamma-encoded value to an integer in 0–255. -/
def normalize255 (val : ℚ) : ℤ :=
  if val < 0 then 0
  else if val > 1 then 255
  else jsRound (val * 255)

/-- `xyToRgb` (colorConversion.ts lines 172–229). -/
def xyToRgb (pw : ℚ → ℚ → ℚ) (x y Y : ℚ) : ℤ × ℤ × ℤ :=
  if y = 0 ∨ x + y > 1 then (128, 128, 128)
  else
    let pre := xyToLinearPre x y Y
    let scaled := gamutScale pre.1 pre.2.1 pre.2.2
    let rGamma := gammaCorrect pw (max (-0.5) (min 1.5 scaled.1))
    let gGamma := gammaCorrect pw (max (-0.5) (min 1.5 scaled.2.1))
    let bGamma := gammaCorrect pw (max (-0.5) (min 1.5 scaled.2.2))
    (normalize255 rGamma, normalize255 gGamma, normalize255 bGamma)

/-! ## Ray casting (Renderer2D.ts lines 522–542, CIEBackground.ts lines
145–165; both bodies are identical) -/

/-- One step of the ray-casting loop: does the horizontal ray from `p`
toward +∞x cross the edge from vertex `vj` to vertex `vi`? -/
def rayCrosses (p vi vj : ℚ × ℚ) : Bool :=
  (decide (vi.2 > p.2) != decide (vj.2 > p.2)) &&
    decide (p.1 < (vj.1 - vi.1) * (p.2 - vi.2) / (vj.2 - vi.2) + vi.1)

/-- The cyclic predecessor list: pairs each vertex `i` with vertex
`j = i - 1 mod n`, starting with the wrap-around edge (last vertex,
first vertex), exactly as the `for (i = 0, j = n-1; i < n; j = i++)`
loop does. -/
def prevCyclic (poly : List (ℚ × ℚ)) : List (ℚ × ℚ) :=
  match poly.getLast? with
  | none => []
  | some last => last :: poly.dropLast

/-- `isPointInsideSpectralLocus` (Renderer2D.ts lines 522–542): ray casting
over every edge of the polygon, including the wrap-around edge. -/
def isPointInsideSpectralLocus (point : ℚ × ℚ) (poly : List (ℚ × ℚ)) : Bool :=
  (poly.zip (prevCyclic poly)).foldl
    (fun inside e => if rayCrosses point e.1 e.2 then !inside else inside)
    false

/-! ## Hex helper (valuesToHex module, `rgbToHex`) -/

/-- Lowercase hexadecimal digit character, as produced by JavaScript
`Number.prototype.toString(16)`. -/
def hexDigitChar (n : ℕ) : Char :=
  if n < 10 then Char.ofNat (48 + n) else Char.ofNat (87 + n)

/-- Two lowercase hex digits for a byte value, the result of
`.toString(16).padStart(2, '0')` on an integer in 0–255. -/
def byteToHex (n : ℕ) : String :=
  String.mk [hexDigitChar (n / 16 % 16), hexDigitChar (n % 16)]

/-- `rgbToHex` (valuesToHex module): per channel, round, clamp to 0–255 and
render as two lowercase hex digits, prefixed with a hash character. -/
def rgbToHex (r g b : ℚ) : String :=
  let toHex := fun (n : ℚ) => byteToHex (max 0 (min 255 (jsRound n))).toNat
  "#" ++ toHex r ++ toHex g ++ toHex b

/-! ## Conversion-core functions used by `computeDependentGradient` whose
bodies are not among the provided sources (only their callers import them
from `utils/colorConversion`); each is modelled from the spec. -/

/-- Modelled from the spec: `hslToRgb` (§4.1 "standard hexagonal-chroma
formulas", §3 domains hue ∈ [0,360), saturation/lightness ∈ [0,100],
output RGB channels ∈ [0,255]); the body of the library-level `hslToRgb`
in `utils/colorConversion` is missing from the provided sources. -/
def hslToRgb (h s l : ℚ) : ℤ × ℤ × ℤ :=
  let sn := s / 100
  let ln := l / 100
  let c := (1 - |2 * ln - 1|) * sn
  let hp := h / 60
  let hpMod2 := hp - 2 * (⌊hp / 2⌋ : ℤ)
  let xc := c * (1 - |hpMod2 - 1|)
  let m := ln - c / 2
  let sextant : ℤ := ⌊hp⌋
  let rgb1 : ℚ × ℚ × ℚ :=
    if sextant = 0 then (c, xc, 0)
    else if sextant = 1 then (xc, c, 0)
    else if sextant = 2 then (0, c, xc)
    else if sextant = 3 then (0, xc, c)
    else if sextant = 4 then (xc, 0, c)
    else (c, 0, xc)
  (jsRound ((rgb1.1 + m) * 255), jsRound ((rgb1.2.1 + m) * 255),
   jsRound ((rgb1.2.2 + m) * 255))

/-- Modelled from the spec: `hsvToRgb` (§4.1 "standard hexagonal-chroma
formulas" for RGB ↔ HSV); body missing from the provided sources. -/
def hsvToRgb (h s v : ℚ) : ℤ × ℤ × ℤ :=
  let sn := s / 100
  let vn := v / 100
  let c := vn * sn
  let hp := h / 60
  let hpMod2 := hp - 2 * (⌊hp / 2⌋ : ℤ)
  let xc := c * (1 - |hpMod2 - 1|)
  let m := vn - c
  let sextant : ℤ := ⌊hp⌋
  let rgb1 : ℚ × ℚ × ℚ :=
    if sextant = 0 then (c, xc, 0)
    else if sextant = 1 then (xc, c, 0)
    else if sextant = 2 then (0, c, xc)
    else if sextant = 3 then (0, xc, c)
    else if sextant = 4 then (xc, 0, c)
    else (c, 0, xc)
  (jsRound ((rgb1.1 + m) * 255), jsRound ((rgb1.2.1 + m) * 255),
   jsRound ((rgb1.2.2 + m) * 255))

/-- Modelled from the spec: `labToXyz` (§4.1 "standard CIE formulas" with
the piecewise inverse, cube branch vs. linear branch `7.787t + 16/116`,
D65 white Xn=95.047, Yn=100, Zn=108.883); body missing from the provided
sources. -/
def labToXyz (L a b : ℚ) : ℚ × ℚ × ℚ :=
  let fy := (L + 16) / 116
  let fx := a / 500 + fy
  let fz := fy - b / 200
  let finv := fun (t : ℚ) =>
    if t ^ 3 > 0.008856 then t ^ 3 else (t - 16 / 116) / 7.787
  (95.047 * finv fx, 100 * finv fy, 108.883 * finv fz)

/-- Modelled from the spec: `xyzToRgb` (§6 table: composition of
`xyzToLinearRgb`, the fixed inverse 3×3 matrix, with the sRGB gamma encode
of §4.1, threshold 0.0031308, final clamp to [0,255]); body missing from
the provided sources.  `Math.pow` is the abstract parameter `pw`. -/
def xyzToRgb (pw : ℚ → ℚ → ℚ) (x y z : ℚ) : ℤ × ℤ × ℤ :=
  let xn := x / 100
  let yn := y / 100
  let zn := z / 100
  let r := xn * 3.2404542 + yn * (-1.5371385) + zn * (-0.4985314)
  let g := xn * (-0.9692660) + yn * 1.8760108 + zn * 0.0415560
  let b := xn * 0.0556434 + yn * (-0.2040259) + zn * 1.0572252
  let encode := fun (v : ℚ) =>
    if v ≤ 0.0031308 then 12.92 * v else 1.055 * pw v (1 / 2.4) - 0.055
  let toByte := fun (v : ℚ) => max 0 (min 255 (jsRound (encode v * 255)))
  (toByte r, toByte g, toByte b)

/-- Modelled from the spec: `labToRgb` as the chain Lab → XYZ → RGB
(§1 "Lab ↔ LCh ↔ XYZ ↔ RGB"); body missing from the provided sources. -/
def labToRgb (pw : ℚ → ℚ → ℚ) (L a b : ℚ) : ℤ × ℤ × ℤ :=
  let xyz := labToXyz L a b
  xyzToRgb pw xyz.1 xyz.2.1 xyz.2.2

/-- Modelled from the spec: `lchToLab` (§4.1 "polar transform",
`a = C·cos h°`, `b = C·sin h°`); body missing from the provided sources.
Cosine and sine of an angle in degrees are the abstract parameters
`cosD` and `sinD`. -/
def lchToLab (cosD sinD : ℚ → ℚ) (L C h : ℚ) : ℚ × ℚ × ℚ :=
  (L, C * cosD h, C * sinD h)

/-- Modelled from the spec: `ycbcrToRgb` (§4.1 ITU-R BT.601 inverse:
subtract the +16 / +128 offsets, apply the inverse matrix, clamp the
result to [0,255]); body missing from the provided sources. -/
def ycbcrToRgb (y cb cr : ℚ) : ℤ × ℤ × ℤ :=
  let yd := y - 16
  let cbd := cb - 128
  let crd := cr - 128
  let toByte := fun (v : ℚ) => max 0 (min 255 (jsRound v))
  (toByte (1.164 * yd + 1.596 * crd),
   toByte (1.164 * yd - 0.392 * cbd - 0.813 * crd),
   toByte (1.164 * yd + 2.017 * cbd))

/-! ## src/src/color-channel-visualizer/createSlider.ts -/

/-- One stop of a gradient descriptor: a position in [0,1] and a CSS color
string. -/
structure GradientStop where
  pos : ℚ
  color : String

/-- The gradient descriptor returned by `computeDependentGradient`. -/
structure GradientDesc where
  type : String
  stops : List GradientStop

/-- JavaScript `String.prototype.toUpperCase` restricted to the ASCII
strings used as color-space ids (character-wise upcasing). -/
def jsToUpper (s : String) : String :=
  String.mk (s.data.map Char.toUpper)

/-- A record of current channel values (`Record<string, number>`), as an
optional lookup from channel keys; `v.k ?? d` becomes
`(values k).getD d`. -/
def ValueMap : Type := String → Option ℚ

/-- `v.L ?? v.l ?? 50` — the L lookup used by the LAB and LCH branches. -/
def lookupL (values : ValueMap) : ℚ :=
  ((values "L").orElse (fun _ => values "l")).getD 50

/-- `computeDependentGradient` (createSlider.ts lines 347–397).
The conversion-core helpers it imports are the spec-modelled functions
above; `rgbToHex` is the source helper.  `pw`, `cosD`, `sinD` are the
abstract transcendental primitives. -/
def computeDependentGradient (pw : ℚ → ℚ → ℚ) (cosD sinD : ℚ → ℚ)
    (colorSpace channelKey : String) (values : ValueMap) :
    Option GradientDesc :=
  let space := jsToUpper colorSpace
  let toHex := fun (c : ℤ × ℤ × ℤ) =>
    rgbToHex (c.1 : ℚ) (c.2.1 : ℚ) (c.2.2 : ℚ)
  if space = "HSL" ∧ channelKey = "s" then
    let c := hslToRgb ((values "h").getD 0) 100 50
    some ⟨"linear", [⟨0, "#808080"⟩, ⟨1, toHex c⟩]⟩
  else if space = "HSL" ∧ channelKey = "l" then
    let c := hslToRgb ((values "h").getD 0) ((values "s").getD 50) 50
    some ⟨"linear", [⟨0, "#000000"⟩, ⟨0.5, toHex c⟩, ⟨1, "#ffffff"⟩]⟩
  else if space = "HSV" ∧ channelKey = "s" then
    let c := hsvToRgb ((values "h").getD 0) 100 100
    some ⟨"linear", [⟨0, "#808080"⟩, ⟨1, toHex c⟩]⟩
  else if space = "HSV" ∧ channelKey = "v" then
    let c := hsvToRgb ((values "h").getD 0) ((values "s").getD 50) 100
    some ⟨"linear", [⟨0, "#000000"⟩, ⟨0.5, toHex c⟩, ⟨1, "#ffffff"⟩]⟩
  else if space = "LAB" ∧ (channelKey = "a" ∨ channelKey = "b") then
    let L := lookupL values
    let minColor := if channelKey = "a" then toHex (labToRgb pw L (-128) 0)
      else toHex (labToRgb pw L 0 (-128))
    let midColor := toHex (labToRgb pw L 0 0)
    let maxColor := if channelKey = "a" then toHex (labToRgb pw L 127 0)
      else toHex (labToRgb pw L 0 127)
    some ⟨"linear", [⟨0, minColor⟩, ⟨0.5, midColor⟩, ⟨1, maxColor⟩]⟩
  else if space = "LCH" ∧ channelKey = "C" then
    let L := lookupL values
    let h := (values "h").getD 0
    let grayLab := lchToLab cosD sinD L 0 h
    let fullLab := lchToLab cosD sinD L 132 h
    let gray := toHex (labToRgb pw grayLab.1 grayLab.2.1 grayLab.2.2)
    let full := toHex (labToRgb pw fullLab.1 fullLab.2.1 fullLab.2.2)
    some ⟨"linear", [⟨0, gray⟩, ⟨1, full⟩]⟩
  else if space = "YCBCR" ∧ (channelKey = "cb" ∨ channelKey = "cr") then
    let y := (values "y").getD 128
    let mid := toHex (ycbcrToRgb y 128 128)
    let minC := if channelKey = "cb" then "#0000ff" else "#008000"
    let maxC := if channelKey = "cb" then "#ffff00" else "#ff0000"
    some ⟨"linear", [⟨0, minC⟩, ⟨0.5, mid⟩, ⟨1, maxC⟩]⟩
  else
    none

/-- The documented rule table of the spec (§4.3): the (space, channel)
pairs for which a special dependent-gradient rule exists.  Spec-side
definition used to state the rule-table claim. -/
def inRuleTable (space channelKey : String) : Bool :=
  (space = "HSL" && (channelKey = "s" || channelKey = "l")) ||
  (space = "HSV" && (channelKey = "s" || channelKey = "v")) ||
  (space = "LAB" && (channelKey = "a" || channelKey = "b")) ||
  (space = "LCH" && channelKey = "C") ||
  (space = "YCBCR" && (channelKey = "cb" || channelKey = "cr"))

end Negarity

/-! ## Helper lemmas -/

theorem Negarity.linearize_eq_srgbDecodeSpec (pw : ℚ → ℚ → ℚ) (v : ℚ) :
    Negarity.linearize pw v = Negarity.srgbDecodeSpec pw v := by
  simp only [Negarity.linearize, Negarity.srgbDecodeSpec]
  split_ifs with h1 h2 <;> first | rfl | linarith

theorem Negarity.normalize255_range (v : ℚ) :
    0 ≤ Negarity.normalize255 v ∧ Negarity.normalize255 v ≤ 255 := by
  unfold Negarity.normalize255 Negarity.jsRound
  split_ifs with h1 h2
  · norm_num
  · norm_num
  · push_neg at h1 h2
    refine ⟨Int.floor_nonneg.mpr (by nlinarith), ?_⟩
    have hlt : (⌊v * 255 + 1 / 2⌋ : ℤ) < 256 :=
      Int.floor_lt.mpr (by push_cast; nlinarith)
    omega

/-! ## Claim theorems -/

/-- Claim C2: `rgbToLinear` divides each channel by 255 and applies the
two-branch sRGB transfer function to each channel independently: at most
0.04045 after normalization it divides by 12.92, above that it uses the
`((v+0.055)/1.055)^2.4` power branch — i.e. it agrees with the spec's
piecewise curve `srgbDecodeSpec` for every realization of `Math.pow`, so
it is the two-branch sRGB curve and not a one-branch power law. -/
theorem rgbToLinear_is_piecewise_srgb (pw : ℚ → ℚ → ℚ) (r g b : ℚ) :
    Negarity.rgbToLinear pw r g b =
      (Negarity.srgbDecodeSpec pw r, Negarity.srgbDecodeSpec pw g,
       Negarity.srgbDecodeSpec pw b) := by
  unfold Negarity.rgbToLinear
  rw [Negarity.linearize_eq_srgbDecodeSpec, Negarity.linearize_eq_srgbDecodeSpec,
    Negarity.linearize_eq_srgbDecodeSpec]

/-- Claim C3: whenever X+Y+Z ≠ 0, `xyzToXy` returns the chromaticity pair
(X/(X+Y+Z), Y/(X+Y+Z)); when the sum is 0 (in particular at X=Y=Z=0) it
returns exactly (0, 0) through the explicit degenerate branch. -/
theorem xyzToXy_ratio_and_degenerate (x y z : ℚ) :
    (x + y + z ≠ 0 →
      Negarity.xyzToXy x y z = (x / (x + y + z), y / (x + y + z))) ∧
    (x + y + z = 0 → Negarity.xyzToXy x y z = (0, 0)) := by
  constructor <;> intro h <;> simp [Negarity.xyzToXy, h]

/-- Witness for C3 at the concrete inputs (41.24, 21.26, 1.93) and
(0, 0, 0). -/
theorem xyzToXy_ratio_and_degenerate_witness :
    Negarity.xyzToXy 41.24 21.26 1.93 =
      (41.24 / (41.24 + 21.26 + 1.93), 21.26 / (41.24 + 21.26 + 1.93)) ∧
    Negarity.xyzToXy 0 0 0 = (0, 0) :=
  ⟨(xyzToXy_ratio_and_degenerate 41.24 21.26 1.93).1 (by norm_num),
   (xyzToXy_ratio_and_degenerate 0 0 0).2 (by norm_num)⟩

/-- Claim C4: the ray-casting containment test (identical in Renderer2D and
CIEBackground) classifies the centroid of the RGB gamut triangle as inside
the triangle and the far point (2, 2) as outside the spectral locus. -/
theorem rayCasting_centroid_inside_far_point_outside :
    Negarity.isPointInsideSpectralLocus
      ((0.64 + 0.30 + 0.15) / 3, (0.33 + 0.60 + 0.06) / 3)
      Negarity.getRgbGamutVertices = true ∧
    Negarity.isPointInsideSpectralLocus (2, 2)
      Negarity.getSpectralLocus = false := by
  constructor <;>
    norm_num [Negarity.isPointInsideSpectralLocus, Negarity.getRgbGamutVertices,
      Negarity.getSpectralLocus, Negarity.prevCyclic, Negarity.rayCrosses]

/-- Claim C9 counterexample: on the white input (1, 1, 1) the Y component
of `linearRgbToXyz` is not exactly 100 (it is 100.00001, because the
published 7-decimal matrix row sums to 1.0000001). -/
theorem linearRgbToXyz_white_Y_ne_100 :
    (Negarity.linearRgbToXyz 1 1 1).2.1 ≠ 100 := by
  norm_num [Negarity.linearRgbToXyz]

/-- Claim C9 (amended): `linearRgbToXyz` is the fixed sRGB D65 3×3 matrix
multiply with every component scaled by 100, and the white input (1, 1, 1)
yields a Y component of 100.00001 — equal to 100 only to within 10⁻³, not
exactly. -/
theorem linearRgbToXyz_matrix_times_100 (r g b : ℚ) :
    Negarity.linearRgbToXyz r g b =
      ((Negarity.xyzRawSpec r g b).1 * 100,
       (Negarity.xyzRawSpec r g b).2.1 * 100,
       (Negarity.xyzRawSpec r g b).2.2 * 100) ∧
    (Negarity.linearRgbToXyz 1 1 1).2.1 = 100.00001 := by
  constructor
  · simp [Negarity.linearRgbToXyz, Negarity.xyzRawSpec]
  · norm_num [Negarity.linearRgbToXyz]

/-- Claim C10: whenever y = 0 or x + y > 1, `xyToRgb` takes the edge-case
branch and returns the fixed gray triple (128, 128, 128). -/
theorem xyToRgb_gray_fallback (pw : ℚ → ℚ → ℚ) (x y Y : ℚ)
    (h : y = 0 ∨ x + y > 1) :
    Negarity.xyToRgb pw x y Y = (128, 128, 128) := by
  unfold Negarity.xyToRgb
  rw [if_pos h]

/-- Witness for C10 at the concrete degenerate input (0.5, 0, 1). -/
theorem xyToRgb_gray_fallback_witness :
    Negarity.xyToRgb (fun _ _ => 0) 0.5 0 1 = (128, 128, 128) :=
  xyToRgb_gray_fallback (fun _ _ => 0) 0.5 0 1 (Or.inl rfl)

/-- Claim C5: for every input, each of the three components `xyToRgb`
returns is an integer in [0, 255] — the gray branch returns 128s and the
main path ends in the hard clamp `normalize255`, whatever the gamma
encoder produced; and the hard clamp maps values below 0 to 0, values
above 1 to 255 and everything else to round(value·255). -/
theorem xyToRgb_output_in_byte_range (pw : ℚ → ℚ → ℚ) (x y Y : ℚ) :
    (0 ≤ (Negarity.xyToRgb pw x y Y).1 ∧ (Negarity.xyToRgb pw x y Y).1 ≤ 255 ∧
     0 ≤ (Negarity.xyToRgb pw x y Y).2.1 ∧ (Negarity.xyToRgb pw x y Y).2.1 ≤ 255 ∧
     0 ≤ (Negarity.xyToRgb pw x y Y).2.2 ∧ (Negarity.xyToRgb pw x y Y).2.2 ≤ 255) ∧
    (∀ v : ℚ, v < 0 → Negarity.normalize255 v = 0) ∧
    (∀ v : ℚ, 1 < v → Negarity.normalize255 v = 255) ∧
    (∀ v : ℚ, 0 ≤ v → v ≤ 1 →
      Negarity.normalize255 v = Negarity.jsRound (v * 255)) := by
  refine ⟨?_, ?_, ?_, ?_⟩
  · unfold Negarity.xyToRgb
    split_ifs with h
    · norm_num
    · exact ⟨(Negarity.normalize255_range _).1, (Negarity.normalize255_range _).2,
        (Negarity.normalize255_range _).1, (Negarity.normalize255_range _).2,
        (Negarity.normalize255_range _).1, (Negarity.normalize255_range _).2⟩
  · intro v hv
    simp [Negarity.normalize255, hv]
  · intro v hv
    simp only [Negarity.normalize255]
    rw [if_neg (by linarith), if_pos hv]
  · intro v hv0 hv1
    simp only [Negarity.normalize255]
    rw [if_neg (by linarith), if_neg (by linarith)]

/-- Witness for C5 at the concrete input (0.2, 0.3, 1) with a zero power
function, and the clamp branches at -2, 2 and 1/2. -/
theorem xyToRgb_output_in_byte_range_witness :
    (0 ≤ (Negarity.xyToRgb (fun _ _ => 0) 0.2 0.3 1).1 ∧
     (Negarity.xyToRgb (fun _ _ => 0) 0.2 0.3 1).1 ≤ 255 ∧
     0 ≤ (Negarity.xyToRgb (fun _ _ => 0) 0.2 0.3 1).2.1 ∧
     (Negarity.xyToRgb (fun _ _ => 0) 0.2 0.3 1).2.1 ≤ 255 ∧
     0 ≤ (Negarity.xyToRgb (fun _ _ => 0) 0.2 0.3 1).2.2 ∧
     (Negarity.xyToRgb (fun _ _ => 0) 0.2 0.3 1).2.2 ≤ 255) ∧
    Negarity.normalize255 (-2) = 0 ∧
    Negarity.normalize255 2 = 255 ∧
    Negarity.normalize255 (1 / 2) = Negarity.jsRound (1 / 2 * 255) := by
  obtain ⟨hr, hneg, hover, hmid⟩ :=
    xyToRgb_output_in_byte_range (fun _ _ => 0) 0.2 0.3 1
  exact ⟨hr, hneg (-2) (by norm_num), hover 2 (by norm_num),
    hmid (1 / 2) (by norm_num) (by norm_num)⟩

/-- Claim C1: on inputs passing the degeneracy guard (y ≠ 0 and x + y ≤ 1),
when the linear triple (r, g, b) produced by the inverse matrix has maximum
channel above 1, `xyToRgb` divides all three channels by that maximum (the
`gamutScale` step), which preserves the pairwise ratios of the three linear
channels (hue), and gamma-encodes the scaled channels — rather than
clamping each channel to 1 independently. -/
theorem xyToRgb_scale_by_max_preserves_hue (pw : ℚ → ℚ → ℚ) (x y Y r g b : ℚ)
    (hy : y ≠ 0) (hxy : x + y ≤ 1)
    (hpre : Negarity.xyToLinearPre x y Y = (r, g, b))
    (hmax : 1 < max r (max g b)) :
    Negarity.gamutScale r g b =
      (r / max r (max g b), g / max r (max g b), b / max r (max g b)) ∧
    (r / max r (max g b)) * g = (g / max r (max g b)) * r ∧
    (r / max r (max g b)) * b = (b / max r (max g b)) * r ∧
    (g / max r (max g b)) * b = (b / max r (max g b)) * g ∧
    Negarity.xyToRgb pw x y Y =
      (Negarity.normalize255 (Negarity.gammaCorrect pw
         (max (-0.5) (min 1.5 (r / max r (max g b))))),
       Negarity.normalize255 (Negarity.gammaCorrect pw
         (max (-0.5) (min 1.5 (g / max r (max g b))))),
       Negarity.normalize255 (Negarity.gammaCorrect pw
         (max (-0.5) (min 1.5 (b / max r (max g b)))))) := by
  have hscale : Negarity.gamutScale r g b =
      (r / max r (max g b), g / max r (max g b), b / max r (max g b)) := by
    simp only [Negarity.gamutScale]
    rw [if_pos hmax]
  refine ⟨hscale, by ring, by ring, by ring, ?_⟩
  unfold Negarity.xyToRgb
  rw [if_neg (by push_neg; exact ⟨hy, not_lt.mp (by exact not_lt.mpr hxy)⟩)]
  simp only [hpre, hscale]

/-- Witness for C1 at the concrete input (x, y, Y) = (0.2, 0.3, 1), whose
linear triple is (-6231641/30000000, 38972804/30000000, 47853351/30000000)
with maximum 47853351/30000000 > 1. -/
theorem xyToRgb_scale_by_max_preserves_hue_witness :
    Negarity.gamutScale (-6231641 / 30000000) (38972804 / 30000000)
      (47853351 / 30000000) =
      (-6231641 / 30000000 /
         max (-6231641 / 30000000 : ℚ)
           (max (38972804 / 30000000 : ℚ) (47853351 / 30000000 : ℚ)),
       38972804 / 30000000 /
         max (-6231641 / 30000000 : ℚ)
           (max (38972804 / 30000000 : ℚ) (47853351 / 30000000 : ℚ)),
       47853351 / 30000000 /
         max (-6231641 / 30000000 : ℚ)
           (max (38972804 / 30000000 : ℚ) (47853351 / 30000000 : ℚ))) :=
  (xyToRgb_scale_by_max_preserves_hue (fun _ _ => 0) 0.2 0.3 1
    (-6231641 / 30000000) (38972804 / 30000000) (47853351 / 30000000)
    (by norm_num) (by norm_num)
    (by norm_num [Negarity.xyToLinearPre]) (by norm_num)).1

/-- Claim C8: the conversion-core `hslToRgb` (spec domains: hue in degrees,
saturation/lightness in percent) maps (0, 100, 50) to pure red
(255, 0, 0). -/
theorem hslToRgb_red_fixed_point : Negarity.hslToRgb 0 100 50 = (255, 0, 0) := by
  norm_num [Negarity.hslToRgb, Negarity.jsRound]

/-- Claim C6: `computeDependentGradient` on ('HSL', 's') with current hue 0
returns a linear gradient of exactly two stops: gray `#808080` at position
0 and, at position 1, the hex encoding of `hslToRgb 0 100 50`. -/
theorem computeDependentGradient_hsl_s_gradient (pw : ℚ → ℚ → ℚ)
    (cosD sinD : ℚ → ℚ) :
    Negarity.computeDependentGradient pw cosD sinD "HSL" "s"
      (fun k => if k = "h" then some 0 else none) =
    some ⟨"linear", [⟨0, "#808080"⟩,
      ⟨1, Negarity.rgbToHex ((Negarity.hslToRgb 0 100 50).1 : ℚ)
        ((Negarity.hslToRgb 0 100 50).2.1 : ℚ)
        ((Negarity.hslToRgb 0 100 50).2.2 : ℚ)⟩]⟩ := rfl

set_option maxHeartbeats 2000000 in
/-- Claim C7: `computeDependentGradient` returns `none` exactly when the
upcased (space, channel) pair is outside the documented rule table (HSL
s/l, HSV s/v, LAB a/b, LCH C, YCBCR cb/cr), and every gradient it does
return is a descriptor whose stop positions are [0, 1] or [0, 0.5, 1]. -/
theorem computeDependentGradient_rule_table (pw : ℚ → ℚ → ℚ)
    (cosD sinD : ℚ → ℚ) (colorSpace channelKey : String)
    (values : Negarity.ValueMap) :
    (Negarity.computeDependentGradient pw cosD sinD colorSpace channelKey
        values = none ↔
      Negarity.inRuleTable (Negarity.jsToUpper colorSpace) channelKey = false) ∧
    (∀ g, Negarity.computeDependentGradient pw cosD sinD colorSpace channelKey
        values = some g →
      g.stops.map Negarity.GradientStop.pos = [0, 1] ∨
      g.stops.map Negarity.GradientStop.pos = [0, 0.5, 1]) := by
  simp only [Negarity.computeDependentGradient]
  by_cases h1 : Negarity.jsToUpper colorSpace = "HSL" ∧ channelKey = "s"
  · rw [if_pos h1]
    obtain ⟨hs, rfl⟩ := h1
    refine ⟨by rw [hs]; simp [Negarity.inRuleTable], fun g hg => ?_⟩
    simp only [Option.some.injEq] at hg
    subst hg
    left; rfl
  rw [if_neg h1]
  by_cases h2 : Negarity.jsToUpper colorSpace = "HSL" ∧ channelKey = "l"
  · rw [if_pos h2]
    obtain ⟨hs, rfl⟩ := h2
    refine ⟨by rw [hs]; simp [Negarity.inRuleTable], fun g hg => ?_⟩
    simp only [Option.some.injEq] at hg
    subst hg
    right; rfl
  rw [if_neg h2]
  by_cases h3 : Negarity.jsToUpper colorSpace = "HSV" ∧ channelKey = "s"
  · rw [if_pos h3]
    obtain ⟨hs, rfl⟩ := h3
    refine ⟨by rw [hs]; simp [Negarity.inRuleTable], fun g hg => ?_⟩
    simp only [Option.some.injEq] at hg
    subst hg
    left; rfl
  rw [if_neg h3]
  by_cases h4 : Negarity.jsToUpper colorSpace = "HSV" ∧ channelKey = "v"
  · rw [if_pos h4]
    obtain ⟨hs, rfl⟩ := h4
    refine ⟨by rw [hs]; simp [Negarity.inRuleTable], fun g hg => ?_⟩
    simp only [Option.some.injEq] at hg
    subst hg
    right; rfl
  rw [if_neg h4]
  by_cases h5 : Negarity.jsToUpper colorSpace = "LAB" ∧
      (channelKey = "a" ∨ channelKey = "b")
  · rw [if_pos h5]
    obtain ⟨hs, hk⟩ := h5
    refine ⟨?_, fun g hg => ?_⟩
    · rcases hk with rfl | rfl <;> (rw [hs]; simp [Negarity.inRuleTable])
    · simp only [Option.some.injEq] at hg
      subst hg
      right; rfl
  rw [if_neg h5]
  by_cases h6 : Negarity.jsToUpper colorSpace = "LCH" ∧ channelKey = "C"
  · rw [if_pos h6]
    obtain ⟨hs, rfl⟩ := h6
    refine ⟨by rw [hs]; simp [Negarity.inRuleTable], fun g hg => ?_⟩
    simp only [Option.some.injEq] at hg
    subst hg
    left; rfl
  rw [if_neg h6]
  by_cases h7 : Negarity.jsToUpper colorSpace = "YCBCR" ∧
      (channelKey = "cb" ∨ channelKey = "cr")
  · rw [if_pos h7]
    obtain ⟨hs, hk⟩ := h7
    refine ⟨?_, fun g hg => ?_⟩
    · rcases hk with rfl | rfl <;> (rw [hs]; simp [Negarity.inRuleTable])
    · simp only [Option.some.injEq] at hg
      subst hg
      right; rfl
  rw [if_neg h7]
  refine ⟨?_, fun g hg => by simp at hg⟩
  simp only [true_iff, eq_self_iff_true]
  rw [Bool.eq_false_iff]
  intro hT
  simp only [Negarity.inRuleTable, Bool.or_eq_true, Bool.and_eq_true,
    decide_eq_true_eq] at hT
  tauto

/-- Witness for C7: at ('HSL', 's') the returned gradient's stop positions
are [0, 1] (or [0, 0.5, 1]). -/
theorem computeDependentGradient_rule_table_witness :
    (⟨"linear", [⟨0, "#808080"⟩,
      ⟨1, Negarity.rgbToHex ((Negarity.hslToRgb 0 100 50).1 : ℚ)
        ((Negarity.hslToRgb 0 100 50).2.1 : ℚ)
        ((Negarity.hslToRgb 0 100 50).2.2 : ℚ)⟩]⟩ :
        Negarity.GradientDesc).stops.map Negarity.GradientStop.pos = [0, 1] ∨
    (⟨"linear", [⟨0, "#808080"⟩,
      ⟨1, Negarity.rgbToHex ((Negarity.hslToRgb 0 100 50).1 : ℚ)
        ((Negarity.hslToRgb 0 100 50).2.1 : ℚ)
        ((Negarity.hslToRgb 0 100 50).2.2 : ℚ)⟩]⟩ :
        Negarity.GradientDesc).stops.map Negarity.GradientStop.pos =
      [0, 0.5, 1] :=
  (computeDependentGradient_rule_table (fun _ _ => 0) (fun _ => 0) (fun _ => 0)
    "HSL" "s" (fun k => if k = "h" then some 0 else none)).2 _ rfl
